import Mathlib

/-!
Shallow embedding of `src/validate_config.py`, a pydantic-v2 based YAML
configuration validator.  Parsed YAML documents are modelled as a generic
`Value` tree (YAML floats as exact rationals), pydantic's per-field lax
validation of the schema model classes (`Zone`, `Zwift`, `Athlete`,
`AIIntegration`, `CustomGearModel`, ...) as functions from `Value` to lists
of `PydanticError` records mirroring `ValidationError.errors()`, and the
error-display function `print_friendly_errors` as a fold over the error
list that threads the rendered lines, the `printed_links` set and the
trace of `webbrowser.open` calls, with Python exceptions modelled by an
explicit `exc` field.
-/

/-- One segment of a pydantic error location (`loc`): either a field name
or a sequence index. -/
inductive Seg where
  | field (s : String)
  | idx (n : Nat)
deriving DecidableEq, Repr

/-- One entry of `ValidationError.errors()`: location, error type tag and
human message.  The `type` key of the Python dict is called `ty` here. -/
structure PydanticError where
  loc : List Seg
  ty : String
  msg : String
deriving DecidableEq, Repr

/-- A parsed YAML node, as produced by `yaml.load`: the Python values
`None`, `bool`, `int`, `float` (modelled exactly as a rational), `str`,
`list` and string-keyed `dict` (an ordered association list). -/
inductive Value where
  | null
  | bool (b : Bool)
  | int (n : Int)
  | float (q : Rat)
  | str (s : String)
  | list (xs : List Value)
  | map (kvs : List (String × Value))

/-- Python `dict` lookup (`values.get(key)`): first binding of the key. -/
def mapLookup : List (String × Value) → String → Option Value
  | [], _ => none
  | (k, v) :: rest, key => if k = key then some v else mapLookup rest key

/-- Python `dict.pop(key, None)`: the dictionary without the key, other
entries kept in order. -/
def mapRemove (kvs : List (String × Value)) (key : String) : List (String × Value) :=
  kvs.filter (fun kv => !(kv.1 == key))

/-- Python truthiness of a parsed YAML value (`if not values.get(...)`). -/
def truthy : Value → Bool
  | .null => false
  | .bool b => b
  | .int n => n != 0
  | .float q => q != 0
  | .str s => s != ""
  | .list xs => !xs.isEmpty
  | .map kvs => !kvs.isEmpty

/-- Character-wise lowercasing (Python `str.lower` for the ASCII
strings pydantic compares against). -/
def strLower (s : String) : String := String.mk (s.data.map Char.toLower)

/-- Pydantic lax `bool` coercion: actual bools, the ints and floats 0/1,
and the usual boolean strings (case-insensitive). -/
def boolFromStr (s : String) : Option Bool :=
  if s ∈ ["true", "t", "yes", "y", "on", "1"] then some true
  else if s ∈ ["false", "f", "no", "n", "off", "0"] then some false
  else none

/-- Pydantic lax coercion of a value to `bool`; `none` when the value is
not acceptable for a `bool` field. -/
def bool_coerce : Value → Option Bool
  | .bool b => some b
  | .int n => if n = 0 then some false else if n = 1 then some true else none
  | .float q => if q = 0 then some false else if q = 1 then some true else none
  | .str s => boolFromStr (strLower s)
  | _ => none

/-- Pydantic lax validation of a `bool` field (errors carry a `loc`
relative to the field; the caller prefixes the field name). -/
def bool_validate (v : Value) : List PydanticError :=
  match bool_coerce v with
  | some _ => []
  | none =>
    match v with
    | .str _ => [⟨[], "bool_parsing", "Input should be a valid boolean, unable to interpret input"⟩]
    | _ => [⟨[], "bool_type", "Input should be a valid boolean"⟩]

/-- Pydantic lax validation of an `int` field: ints pass, floats pass only
without a fractional part, integer strings are parsed, everything else
(including bools) is rejected. -/
def int_validate : Value → List PydanticError
  | .int _ => []
  | .float q =>
    if q.den = 1 then []
    else [⟨[], "int_from_float", "Input should be a valid integer, got a number with a fractional part"⟩]
  | .str s =>
    match s.toInt? with
    | some _ => []
    | none => [⟨[], "int_parsing", "Input should be a valid integer, unable to parse string as an integer"⟩]
  | _ => [⟨[], "int_type", "Input should be a valid integer"⟩]

/-- Pydantic validation of a `str` field (no lax coercions apply to the
values a YAML document can produce). -/
def str_validate : Value → List PydanticError
  | .str _ => []
  | _ => [⟨[], "string_type", "Input should be a valid string"⟩]

/-- Pydantic validation of a `Literal[...]` field over string literals. -/
def literal_validate (allowed : List String) (v : Value) : List PydanticError :=
  match v with
  | .str s =>
    if s ∈ allowed then []
    else [⟨[], "literal_error", "Input should be one of: " ++ String.intercalate ", " allowed⟩]
  | _ => [⟨[], "literal_error", "Input should be one of: " ++ String.intercalate ", " allowed⟩]

/-- Pydantic validation of `Optional[X]` used as a type (nullable): `null`
passes, anything else is validated as `X` (pydantic special-cases the
nullable union, reporting the inner errors directly). -/
def nullable_validate (f : Value → List PydanticError) (v : Value) : List PydanticError :=
  match v with
  | .null => []
  | _ => f v

/-- Prefix one location segment onto an error, as pydantic does when a
nested validator's errors bubble up to the enclosing field. -/
def pushLoc (s : Seg) (e : PydanticError) : PydanticError :=
  ⟨s :: e.loc, e.ty, e.msg⟩

/-- Validation of one required model field: absent gives a `missing` error
at the field, present delegates to the field's validator. -/
def reqField (kvs : List (String × Value)) (name : String)
    (f : Value → List PydanticError) : List PydanticError :=
  match mapLookup kvs name with
  | some v => (f v).map (pushLoc (.field name))
  | none => [⟨[.field name], "missing", "Field required"⟩]

/-- Validation of a model field that has a default (`= None`): absent is
fine, present delegates to the field's validator. -/
def defField (kvs : List (String × Value)) (name : String)
    (f : Value → List PydanticError) : List PydanticError :=
  match mapLookup kvs name with
  | some v => (f v).map (pushLoc (.field name))
  | none => []

/-- `extra = "forbid"`: one `extra_forbidden` error per input key that is
not a declared field, in input order. -/
def extraErrors (kvs : List (String × Value)) (allowed : List String) : List PydanticError :=
  (kvs.filter (fun kv => !(allowed.contains kv.1))).map
    (fun kv => ⟨[.field kv.1], "extra_forbidden", "Extra inputs are not permitted"⟩)

/-- Element-wise validation of a `List[X]` body, indices from `i`. -/
def listOfAux (f : Value → List PydanticError) : Nat → List Value → List PydanticError
  | _, [] => []
  | i, x :: xs => (f x).map (pushLoc (.idx i)) ++ listOfAux f (i + 1) xs

/-- Pydantic validation of a `List[X]` field. -/
def listOf_validate (f : Value → List PydanticError) (v : Value) : List PydanticError :=
  match v with
  | .list xs => listOfAux f 0 xs
  | _ => [⟨[], "list_type", "Input should be a valid list"⟩]

/-- Value-wise validation of a `Dict[str, X]` body. -/
def dictOfAux (f : Value → List PydanticError) : List (String × Value) → List PydanticError
  | [] => []
  | (k, x) :: rest => (f x).map (pushLoc (.field k)) ++ dictOfAux f rest

/-- Pydantic validation of a `Dict[str, X]` field. -/
def dictOf_validate (f : Value → List PydanticError) (v : Value) : List PydanticError :=
  match v with
  | .map kvs => dictOfAux f kvs
  | _ => [⟨[], "dict_type", "Input should be a valid dictionary"⟩]

/-! ### The schema model classes (pydantic `BaseModel`s from the source) -/

/-- `class Zone(BaseModel)`: `from_: int = Field(..., alias='from')`,
`to: Optional[int]` (required, nullable: pydantic v2 gives `Optional`
without a default no implicit default), `extra = "forbid"`. -/
def Zone_validate : Value → List PydanticError
  | .map kvs =>
    reqField kvs "from" int_validate
      ++ reqField kvs "to" (nullable_validate int_validate)
      ++ extraErrors kvs ["from", "to"]
  | _ => [⟨[], "model_type", "Input should be a valid dictionary or instance of Zone"⟩]

/-- `class HeartRateZones(BaseModel)`: `mode: HeartRateMode`,
`default: Dict[str, Zone]`, `extra = "forbid"`. -/
def HeartRateZones_validate : Value → List PydanticError
  | .map kvs =>
    reqField kvs "mode" (literal_validate ["relative", "absolute"])
      ++ reqField kvs "default" (dictOf_validate Zone_validate)
      ++ extraErrors kvs ["mode", "default"]
  | _ => [⟨[], "model_type", "Input should be a valid dictionary or instance of HeartRateZones"⟩]

/-- Pydantic smart-union validation of `Union[str, Dict[str, int]]`
(the type of `Athlete.maxHeartRateFormula`): a `str` matches the first
alternative; a dict of ints matches the second; when no alternative
matches, pydantic reports the failure of each alternative, tagging its
`loc` with the alternative's name. -/
def maxHeartRateFormula_validate : Value → List PydanticError
  | .str _ => []
  | .map kvs =>
    let dictErrs := (dictOfAux int_validate kvs).map (pushLoc (.field "dict[str,int]"))
    if dictErrs.isEmpty then []
    else ⟨[.field "str"], "string_type", "Input should be a valid string"⟩ :: dictErrs
  | _ =>
    [⟨[.field "str"], "string_type", "Input should be a valid string"⟩,
     ⟨[.field "dict[str,int]"], "dict_type", "Input should be a valid dictionary"⟩]

/-- Pydantic smart-union validation of `Union[int, float]` (the value type
of `Athlete.weightHistory`): ints and floats match; everything else fails
both alternatives, each failure tagged with the alternative's name.
(Decimal float strings, which lax mode would coerce, do not occur in the
claims and are reported as failing here.) -/
def weightEntry_validate : Value → List PydanticError
  | .int _ => []
  | .float _ => []
  | .str s =>
    match s.toInt? with
    | some _ => []
    | none =>
      [⟨[.field "int"], "int_parsing", "Input should be a valid integer, unable to parse string as an integer"⟩,
       ⟨[.field "float"], "float_parsing", "Input should be a valid number, unable to parse string as a number"⟩]
  | _ =>
    [⟨[.field "int"], "int_type", "Input should be a valid integer"⟩,
     ⟨[.field "float"], "float_type", "Input should be a valid number"⟩]

/-- `class Athlete(BaseModel)`: `birthday: str`,
`maxHeartRateFormula: Union[str, Dict[str, int]]`,
`heartRateZones: HeartRateZones`, `weightHistory: Dict[str, Union[int, float]]`,
`ftpHistory: List[int]`, `extra = "forbid"`. -/
def Athlete_validate : Value → List PydanticError
  | .map kvs =>
    reqField kvs "birthday" str_validate
      ++ reqField kvs "maxHeartRateFormula" maxHeartRateFormula_validate
      ++ reqField kvs "heartRateZones" HeartRateZones_validate
      ++ reqField kvs "weightHistory" (dictOf_validate weightEntry_validate)
      ++ reqField kvs "ftpHistory" (listOf_validate int_validate)
      ++ extraErrors kvs ["birthday", "maxHeartRateFormula", "heartRateZones", "weightHistory", "ftpHistory"]
  | _ => [⟨[], "model_type", "Input should be a valid dictionary or instance of Athlete"⟩]

/-- `class Zwift(BaseModel)`: `level: Optional[int]`,
`racingScore: Optional[int]` (both required, nullable), `extra = "forbid"`. -/
def Zwift_validate : Value → List PydanticError
  | .map kvs =>
    reqField kvs "level" (nullable_validate int_validate)
      ++ reqField kvs "racingScore" (nullable_validate int_validate)
      ++ extraErrors kvs ["level", "racingScore"]
  | _ => [⟨[], "model_type", "Input should be a valid dictionary or instance of Zwift"⟩]

/-- `class AIConfiguration(BaseModel)`: `key: str`, `model: str`,
`url: Optional[str]` (required, nullable), `extra = "forbid"`. -/
def AIConfiguration_validate : Value → List PydanticError
  | .map kvs =>
    reqField kvs "key" str_validate
      ++ reqField kvs "model" str_validate
      ++ reqField kvs "url" (nullable_validate str_validate)
      ++ extraErrors kvs ["key", "model", "url"]
  | _ => [⟨[], "model_type", "Input should be a valid dictionary or instance of AIConfiguration"⟩]

/-- The `AIProvider` literal alternatives. -/
def AIProvider_values : List String :=
  ["anthropic", "gemini", "ollama", "openAI", "deepseek", "mistral"]

/-- Is a (defaulted-`None`) model attribute `None` after validation: the
key is absent (default applies) or its value is `null`. -/
def isNoneField (kvs : List (String × Value)) (name : String) : Bool :=
  match mapLookup kvs name with
  | none => true
  | some .null => true
  | some _ => false

namespace AIIntegration

/-- `AIIntegration.skip_nested_if_disabled` (`model_validator(mode='before')`):
`if not values.get('enabled', False): values.pop('provider', None);
values.pop('configuration', None)`.  Note the gate is Python truthiness of
the raw parsed value, and the pops mutate the caller's dict. -/
def skip_nested_if_disabled (kvs : List (String × Value)) : List (String × Value) :=
  if truthy ((mapLookup kvs "enabled").getD (.bool false)) then kvs
  else mapRemove (mapRemove kvs "provider") "configuration"

/-- Pydantic per-field validation of `AIIntegration`: `enabled: bool`,
`enableUI: bool`, `provider: Optional[AIProvider] = None`,
`configuration: Optional[AIConfiguration] = None`, `extra = "forbid"`. -/
def fieldErrors (kvs : List (String × Value)) : List PydanticError :=
  reqField kvs "enabled" bool_validate
    ++ reqField kvs "enableUI" bool_validate
    ++ defField kvs "provider" (nullable_validate (literal_validate AIProvider_values))
    ++ defField kvs "configuration" (nullable_validate AIConfiguration_validate)
    ++ extraErrors kvs ["enabled", "enableUI", "provider", "configuration"]

/-- `AIIntegration.check_required_if_enabled` (`model_validator(mode='after')`),
which pydantic runs only when field validation succeeded: a raised
`ValueError` becomes a single `value_error` at the model's own (empty)
location, so at most one of the two checks is ever reported. -/
def check_required_if_enabled (kvs : List (String × Value)) : List PydanticError :=
  if ((mapLookup kvs "enabled").bind bool_coerce).getD false then
    if isNoneField kvs "provider" then
      [⟨[], "value_error", "Value error, provider is required when AI integration is enabled"⟩]
    else if isNoneField kvs "configuration" then
      [⟨[], "value_error", "Value error, configuration is required when AI integration is enabled"⟩]
    else []
  else []

/-- `AIIntegration.model_validate`: the before-validator transforms the
input, fields are validated collecting all errors, and only when the
fields are clean does the after-validator run. -/
def model_validate : Value → List PydanticError
  | .map kvs0 =>
    let kvs := skip_nested_if_disabled kvs0
    let fe := fieldErrors kvs
    if fe.isEmpty then check_required_if_enabled kvs else fe
  | _ => [⟨[], "model_type", "Input should be a valid dictionary or instance of AIIntegration"⟩]

end AIIntegration

/-- `class CustomGearEntry(BaseModel)`: `tag: str`, `label: str`,
`isRetired: bool`, `extra = "forbid"`. -/
def CustomGearEntry_validate : Value → List PydanticError
  | .map kvs =>
    reqField kvs "tag" str_validate
      ++ reqField kvs "label" str_validate
      ++ reqField kvs "isRetired" bool_validate
      ++ extraErrors kvs ["tag", "label", "isRetired"]
  | _ => [⟨[], "model_type", "Input should be a valid dictionary or instance of CustomGearEntry"⟩]

namespace CustomGearModel

/-- `CustomGearModel.skip_nested_if_disabled` (`model_validator(mode='before')`):
pops `hashtagPrefix` and `customGears` from the caller's dict when
`values.get('enabled', False)` is falsy. -/
def skip_nested_if_disabled (kvs : List (String × Value)) : List (String × Value) :=
  if truthy ((mapLookup kvs "enabled").getD (.bool false)) then kvs
  else mapRemove (mapRemove kvs "hashtagPrefix") "customGears"

/-- Pydantic per-field validation of `CustomGearModel`: `enabled: bool`,
`hashtagPrefix: str`, `customGears: List[CustomGearEntry]` — the latter
two are required fields with no default — `extra = "forbid"`. -/
def fieldErrors (kvs : List (String × Value)) : List PydanticError :=
  reqField kvs "enabled" bool_validate
    ++ reqField kvs "hashtagPrefix" str_validate
    ++ reqField kvs "customGears" (listOf_validate CustomGearEntry_validate)
    ++ extraErrors kvs ["enabled", "hashtagPrefix", "customGears"]

/-- `CustomGearModel.check_required_if_enabled` (`model_validator(mode='after')`):
runs only when field validation succeeded; the `getattr(values, ..., None)`
guards translate to the attribute being `None`. -/
def check_required_if_enabled (kvs : List (String × Value)) : List PydanticError :=
  if ((mapLookup kvs "enabled").bind bool_coerce).getD false then
    if isNoneField kvs "hashtagPrefix" then
      [⟨[], "value_error", "Value error, hashtagPrefix is required when custom gear is enabled"⟩]
    else if isNoneField kvs "customGears" then
      [⟨[], "value_error", "Value error, customGears is required when custom gear is enabled"⟩]
    else []
  else []

/-- `CustomGearModel.model_validate`. -/
def model_validate : Value → List PydanticError
  | .map kvs0 =>
    let kvs := skip_nested_if_disabled kvs0
    let fe := fieldErrors kvs
    if fe.isEmpty then check_required_if_enabled kvs else fe
  | _ => [⟨[], "model_type", "Input should be a valid dictionary or instance of CustomGearModel"⟩]

/-- The state of the caller's parsed document after
`model_class.model_validate(data)` inside `validate_yaml_config`: the
before-validator's `pop` calls mutate `data` in place, so the document the
error display later reads is the popped one. -/
def doc_after : Value → Value
  | .map kvs => .map (skip_nested_if_disabled kvs)
  | v => v

/-- One `validate_yaml_config` pass over an already-parsed document:
the produced errors together with the document as it stands after the
pass. -/
def run_pass (v : Value) : List PydanticError × Value :=
  (model_validate v, doc_after v)

end CustomGearModel

/-! ### Error display (`get_value_by_path`, `FIELD_HELP`, `print_friendly_errors`) -/

/-- The static `FIELD_HELP` table: dotted field path to
(description, doc path). -/
def FIELD_HELP : List (String × String × String) :=
  [("general.appUrl", "Base URL where the app is hosted.", "main-configuration"),
   ("general.athlete.birthday", "Your birthday in YYYY-MM-DD format.", "main-configuration"),
   ("general.athlete.maxHeartRateFormula", "Method or override for max heart rate.", "main-configuration?id=athlete-heart-rate-zones"),
   ("general.athlete.weightHistory", "Map of dates to weight values (int/float).", "main-configuration?id=athlete-weight-history"),
   ("appearance.locale", "UI language of the app.", "main-configuration"),
   ("import.numberOfNewActivitiesToProcessPerImport", "Max number of new activities to fetch.", "main-configuration"),
   ("metrics.eddington", "Custom Eddington score tabs.", "main-configuration"),
   ("integrations.ai.provider", "Which AI service to use", "ai-integration"),
   ("custom-gear.name", "Custom name to display for this gear item.", "custom-gear"),
   ("custom-gear.stravaGearId", "The Strava gear ID this entry links to.", "custom-gear"),
   ("custom-gear.weight", "Weight in kilograms (optional).", "custom-gear"),
   ("custom-gear.default", "Marks this gear item as the default selection.", "custom-gear"),
   ("gear-maintenance.stravaGearId", "The Strava gear ID to which maintenance applies.", "gear-maintenance"),
   ("gear-maintenance.maintenanceDistance", "Distance threshold (in km) after which maintenance is due.", "gear-maintenance"),
   ("gear-maintenance.resetDistance", "Optional distance to reset the maintenance counter.", "gear-maintenance")]

/-- `FIELD_HELP.get(loc_str)`. -/
def field_help_get (key : String) : Option (String × String) :=
  match FIELD_HELP.find? (fun e => e.1 == key) with
  | some e => some e.2
  | none => none

/-- `DOC_BASE_URL` from the source. -/
def DOC_BASE_URL : String :=
  "https://statistics-for-strava-docs.robiningelbrecht.be/#/configuration/"

/-- Python `str(p)` of one loc segment. -/
def segStr : Seg → String
  | .field s => s
  | .idx n => toString n

/-- `".".join(str(p) for p in loc_path)`. -/
def locStr (loc : List Seg) : String :=
  String.intercalate "." (loc.map segStr)

/-- `get_value_by_path(data, path)`: walk the document segment by segment;
a missing key, an out-of-range or non-integer index, or a scalar in the
middle of the path yields the sentinel string. -/
def get_value_by_path : Value → List Seg → Value
  | data, [] => data
  | data, key :: rest =>
    match data, key with
    | .map kvs, .field s =>
      match mapLookup kvs s with
      | some v => get_value_by_path v rest
      | none => .str "<value not found>"
    | .list xs, .idx i =>
      if h : i < xs.length then get_value_by_path (xs.get ⟨i, h⟩) rest
      else .str "<value not found>"
    | _, _ => .str "<value not found>"

mutual

/-- Display form of a value, modelling Python `str()` as used in the
`f"..."` interpolations (container rendering is an approximation; no claim
depends on it). -/
def pyStr : Value → String
  | .null => "None"
  | .bool true => "True"
  | .bool false => "False"
  | .int n => toString n
  | .float q => toString q
  | .str s => s
  | .list xs => "[" ++ pyStrList xs ++ "]"
  | .map kvs => "\x7b" ++ pyStrMap kvs ++ "\x7d"

/-- Comma-joined display of list elements. -/
def pyStrList : List Value → String
  | [] => ""
  | [x] => pyStr x
  | x :: xs => pyStr x ++ ", " ++ pyStrList xs

/-- Comma-joined display of dict entries. -/
def pyStrMap : List (String × Value) → String
  | [] => ""
  | [(k, v)] => k ++ ": " ++ pyStr v
  | (k, v) :: kvs => k ++ ": " ++ pyStr v ++ ", " ++ pyStrMap kvs

end

/-- The observable state of one `print_friendly_errors` run: the lines
printed so far, the `printed_links` set, the ordered trace of
`webbrowser.open` invocations, and the pending Python exception (if the
open hook raised, nothing further runs). -/
structure RenderState where
  lines : List String
  printed_links : List String
  opened : List String
  exc : Option String
deriving DecidableEq, Repr

/-- The body of the `for err in errors` loop of `print_friendly_errors`,
with `webbrowser.open` abstracted as the fallible hook `openFn`.  Once an
exception is pending the remaining iterations do not run. -/
def render_err (original_data : Value) (auto_open_docs : Bool)
    (openFn : String → Except String Unit) (st : RenderState)
    (err : PydanticError) : RenderState :=
  match st.exc with
  | some _ => st
  | none =>
    let loc_path := err.loc
    let loc_str := locStr loc_path
    let msg := err.msg
    let field_info := field_help_get loc_str
    let expected := "Expected type: " ++ err.ty
    let invalid_value := get_value_by_path original_data loc_path
    let base := st.lines ++
      ["• ❌ `" ++ loc_str ++ "`: " ++ msg,
       "  🔎 Invalid value: " ++ pyStr invalid_value]
    match field_info with
    | some di =>
      let doc_url := DOC_BASE_URL ++ di.2
      let withDocs := base ++ ["  🧾 " ++ di.1, "  📘 See docs: " ++ doc_url]
      if auto_open_docs && !(decide (doc_url ∈ st.printed_links)) then
        match openFn doc_url with
        | .ok _ => ⟨withDocs ++ [""], doc_url :: st.printed_links, st.opened ++ [doc_url], none⟩
        | .error e => ⟨withDocs, st.printed_links, st.opened, some e⟩
      else ⟨withDocs ++ [""], st.printed_links, st.opened, none⟩
    | none =>
      ⟨base ++ ["  ↪️  " ++ expected, "  📘 Docs: " ++ DOC_BASE_URL, ""],
       st.printed_links, st.opened, none⟩

/-- `print_friendly_errors(errors, original_data, auto_open_docs)` with
the `webbrowser.open` side effect passed in as `openFn`: starts with the
header and an empty `printed_links` set, then runs the loop body over the
errors in order. -/
def print_friendly_errors (errors : List PydanticError) (original_data : Value)
    (auto_open_docs : Bool) (openFn : String → Except String Unit) : RenderState :=
  errors.foldl (render_err original_data auto_open_docs openFn)
    ⟨["❌ Validation failed:", ""], [], [], none⟩

/-! ### Concrete documents used by the claims -/

/-- A valid `AIConfiguration` input (note `url: Optional[str]` is required
but nullable). -/
def aiCfgValid : Value := .map [("key", .str "k"), ("model", .str "m"), ("url", .null)]

/-- `AIIntegration` input with `enabled=true` and the gated `provider`
absent, everything else valid. -/
def aiProviderAbsent : Value :=
  .map [("enabled", .bool true), ("enableUI", .bool true), ("configuration", aiCfgValid)]

/-- `AIIntegration` input with `enabled=true` and both gated fields
absent. -/
def aiBothAbsent : Value := .map [("enabled", .bool true), ("enableUI", .bool true)]

/-- `AIIntegration` input with `enabled=true` and only `configuration`
absent. -/
def aiConfigAbsent : Value :=
  .map [("enabled", .bool true), ("enableUI", .bool true), ("provider", .str "openAI")]

/-- A valid `HeartRateZones` input. -/
def hrzValid : Value := .map [("mode", .str "relative"), ("default", .map [])]

/-- An `Athlete` input, valid except that `maxHeartRateFormula` is the
given value. -/
def athleteBase (mhr : Value) : Value :=
  .map [("birthday", .str "1990-01-01"), ("maxHeartRateFormula", mhr),
        ("heartRateZones", hrzValid), ("weightHistory", .map []), ("ftpHistory", .list [])]

/-- An `Athlete` input, valid except for the given `weightHistory` and
`ftpHistory` values. -/
def athleteNums (w ftp : Value) : Value :=
  .map [("birthday", .str "1990-01-01"), ("maxHeartRateFormula", .str "fox"),
        ("heartRateZones", hrzValid), ("weightHistory", w), ("ftpHistory", ftp)]

/-- A disabled `custom-gear.yaml` document whose gated fields are present
and well-formed. -/
def cgDisabledDoc : Value :=
  .map [("enabled", .bool false), ("hashtagPrefix", .str "x"), ("customGears", .list [])]

/-- A violation whose dotted path `integrations.ai.provider` has a
`FIELD_HELP` entry (doc link `ai-integration`). -/
def errProv : PydanticError :=
  ⟨[.field "integrations", .field "ai", .field "provider"], "literal_error", "bad provider"⟩

/-- A second violation, whose dotted path `general.appUrl` also has a
`FIELD_HELP` entry. -/
def errUrl : PydanticError :=
  ⟨[.field "general", .field "appUrl"], "url_parsing", "bad url"⟩

/-! ### Helper lemmas (shared) -/

/-- An error is the conversion of a `ValueError` raised by a
`model_validator(mode='after')`. -/
def isValueError (e : PydanticError) : Bool := e.ty == "value_error"

theorem veCount_one (loc : List Seg) (ty msg : String) (h : ty ≠ "value_error") :
    List.countP isValueError [⟨loc, ty, msg⟩] = 0 := by
  simp [List.countP_cons, List.countP_nil, isValueError, h]

theorem veCount_pushLoc (s : Seg) (es : List PydanticError) :
    ((es.map (pushLoc s)).countP isValueError) = es.countP isValueError := by
  rw [List.countP_map]
  rfl

theorem veCount_bool (v : Value) : (bool_validate v).countP isValueError = 0 := by
  unfold bool_validate
  split
  · rfl
  · split
    · exact veCount_one _ _ _ (by decide)
    · exact veCount_one _ _ _ (by decide)

theorem veCount_str (v : Value) : (str_validate v).countP isValueError = 0 := by
  unfold str_validate
  split
  · rfl
  · exact veCount_one _ _ _ (by decide)

theorem veCount_literal (allowed : List String) (v : Value) :
    (literal_validate allowed v).countP isValueError = 0 := by
  unfold literal_validate
  split
  · split
    · rfl
    · exact veCount_one _ _ _ (by decide)
  · exact veCount_one _ _ _ (by decide)

theorem veCount_nullable (f : Value → List PydanticError)
    (hf : ∀ v, (f v).countP isValueError = 0) (v : Value) :
    (nullable_validate f v).countP isValueError = 0 := by
  unfold nullable_validate
  split
  · rfl
  · exact hf v

theorem veCount_reqField (kvs : List (String × Value)) (name : String)
    (f : Value → List PydanticError) (hf : ∀ v, (f v).countP isValueError = 0) :
    (reqField kvs name f).countP isValueError = 0 := by
  unfold reqField
  split
  · rw [veCount_pushLoc]; exact hf _
  · exact veCount_one _ _ _ (by decide)

theorem veCount_defField (kvs : List (String × Value)) (name : String)
    (f : Value → List PydanticError) (hf : ∀ v, (f v).countP isValueError = 0) :
    (defField kvs name f).countP isValueError = 0 := by
  unfold defField
  split
  · rw [veCount_pushLoc]; exact hf _
  · rfl

theorem veCount_extras (kvs : List (String × Value)) (allowed : List String) :
    (extraErrors kvs allowed).countP isValueError = 0 := by
  unfold extraErrors
  rw [List.countP_map]
  induction kvs.filter (fun kv => !(allowed.contains kv.1)) with
  | nil => rfl
  | cons kv rest ih => rw [List.countP_cons, ih]; rfl

theorem veCount_aiconf (v : Value) :
    (AIConfiguration_validate v).countP isValueError = 0 := by
  unfold AIConfiguration_validate
  split
  · simp only [List.countP_append]
    rw [veCount_reqField _ _ _ veCount_str, veCount_reqField _ _ _ veCount_str,
      veCount_reqField _ _ _ (veCount_nullable _ veCount_str), veCount_extras]
  · exact veCount_one _ _ _ (by decide)

theorem veCount_aifields (kvs : List (String × Value)) :
    (AIIntegration.fieldErrors kvs).countP isValueError = 0 := by
  unfold AIIntegration.fieldErrors
  simp only [List.countP_append]
  rw [veCount_reqField _ _ _ veCount_bool, veCount_reqField _ _ _ veCount_bool,
    veCount_defField _ _ _ (veCount_nullable _ (veCount_literal _)),
    veCount_defField _ _ _ (veCount_nullable _ veCount_aiconf), veCount_extras]

/-- Invariant of one `print_friendly_errors` run: the open trace has no
duplicates and everything opened is in `printed_links`. -/
def renderInv (st : RenderState) : Prop :=
  st.opened.Nodup ∧ ∀ l ∈ st.opened, l ∈ st.printed_links

theorem render_err_inv (data : Value) (auto : Bool) (openFn : String → Except String Unit)
    (err : PydanticError) (st : RenderState) (h : renderInv st) :
    renderInv (render_err data auto openFn st err) := by
  unfold render_err
  split
  · exact h
  · dsimp only
    split
    · rename_i fi di hfi
      split
      · rename_i hcond
        split
        · rename_i u hopen
          refine ⟨?_, ?_⟩
          · have hnp : DOC_BASE_URL ++ di.2 ∉ st.printed_links := by
              simp [Bool.and_eq_true] at hcond
              exact hcond.2
            have hno : DOC_BASE_URL ++ di.2 ∉ st.opened := fun hm => hnp (h.2 _ hm)
            simp [List.nodup_append, h.1, hno]
          · intro l hl
            simp at hl
            rcases hl with hl | hl
            · exact List.mem_cons_of_mem _ (h.2 _ hl)
            · simp [hl]
        · exact ⟨h.1, h.2⟩
      · exact ⟨h.1, h.2⟩
    · exact ⟨h.1, h.2⟩

theorem foldl_render_inv (data : Value) (auto : Bool) (openFn : String → Except String Unit) :
    ∀ (errs : List PydanticError) (st : RenderState), renderInv st →
      renderInv (errs.foldl (render_err data auto openFn) st) := by
  intro errs
  induction errs with
  | nil => intro st h; exact h
  | cons e es ih => intro st h; exact ih _ (render_err_inv data auto openFn e st h)

/-! ### Claims -/

/-- Claim C1, counterexample.  The claim says that with `enabled=true` and
a gated-required field absent, validation produces exactly one violation
of kind `missing-field` at that field's path.  For `AIIntegration` with
`provider` absent (and a valid `configuration`), the code instead produces
exactly one `value_error` violation located at the model's own empty path:
the raised `ValueError` of `check_required_if_enabled` is converted by
pydantic to an error at `loc ()`, not a missing-field error at
`["provider"]`. -/
theorem c1_counterexample :
    AIIntegration.model_validate aiProviderAbsent =
      [⟨[], "value_error", "Value error, provider is required when AI integration is enabled"⟩] ∧
    ([⟨[], "value_error", "Value error, provider is required when AI integration is enabled"⟩]
        : List PydanticError) ≠
      [⟨[Seg.field "provider"], "missing", "Field required"⟩] := by
  exact ⟨rfl, by decide⟩

/-- Claim C1, amended.  With the gate `enabled=true` and one
gated-required field absent from the input, validation produces exactly
one violation; for `CustomGearModel` it is indeed a `missing` violation at
the absent field's path (`hashtagPrefix` resp. `customGears`), but for
`AIIntegration` it is a `value_error` violation at the object's own empty
path whose message names the field (the gated fields there have `None`
defaults, so the absence is detected only by the after-validator's raised
`ValueError`). -/
theorem c1_amended :
    AIIntegration.model_validate aiProviderAbsent =
      [⟨[], "value_error", "Value error, provider is required when AI integration is enabled"⟩] ∧
    AIIntegration.model_validate aiConfigAbsent =
      [⟨[], "value_error", "Value error, configuration is required when AI integration is enabled"⟩] ∧
    CustomGearModel.model_validate
        (.map [("enabled", .bool true), ("customGears", .list [])]) =
      [⟨[Seg.field "hashtagPrefix"], "missing", "Field required"⟩] ∧
    CustomGearModel.model_validate
        (.map [("enabled", .bool true), ("hashtagPrefix", .str "#g")]) =
      [⟨[Seg.field "customGears"], "missing", "Field required"⟩] := by
  exact ⟨rfl, rfl, rfl, rfl⟩

/-- Claim C2, counterexample.  The claim says a single pass collects every
violation present in the document.  The `AIIntegration` document
`{enabled: true, enableUI: true}` is missing both gated-required fields,
and the code itself recognises the absence of `configuration` as a
violation (third conjunct), yet the pass over the document reports only
the single `provider` violation (first two conjuncts): the after-validator
raises on the first check and stops. -/
theorem c2_counterexample :
    AIIntegration.model_validate aiBothAbsent =
      [⟨[], "value_error", "Value error, provider is required when AI integration is enabled"⟩] ∧
    (AIIntegration.model_validate aiBothAbsent).length = 1 ∧
    AIIntegration.model_validate aiConfigAbsent =
      [⟨[], "value_error", "Value error, configuration is required when AI integration is enabled"⟩] := by
  exact ⟨rfl, rfl, rfl⟩

/-- Claim C2, amended.  Field-level violations are aggregated in a single
pass — a document with two independent type errors in different fields
yields both violations together — but the conditional-requirement
after-check (`check_required_if_enabled`) stops at its first raised
`ValueError`, so any `AIIntegration` validation reports at most one
`value_error` violation per document even when both gated-required fields
are absent. -/
theorem c2_amended :
    CustomGearModel.model_validate
        (.map [("enabled", .bool true), ("hashtagPrefix", .int 5), ("customGears", .str "zz")]) =
      [⟨[Seg.field "hashtagPrefix"], "string_type", "Input should be a valid string"⟩,
       ⟨[Seg.field "customGears"], "list_type", "Input should be a valid list"⟩] ∧
    ∀ v : Value, (AIIntegration.model_validate v).countP isValueError ≤ 1 := by
  refine ⟨rfl, ?_⟩
  intro v
  unfold AIIntegration.model_validate
  split
  · dsimp only
    split
    · unfold AIIntegration.check_required_if_enabled
      split
      · split
        · decide
        · split
          · decide
          · decide
      · decide
    · rw [veCount_aifields]
      decide
  · exact Nat.zero_le 1

/-- Claim C3, counterexample.  The claim says a value matching no union
alternative yields exactly one `no-union-match` violation at the union
node's path and never the per-alternative sub-violations.  For
`Athlete.maxHeartRateFormula : Union[str, Dict[str, int]]` with the
non-matching input `5`, pydantic's smart union instead reports one
violation per failed alternative, each located at the union's path
extended with the alternative's tag — two violations, neither at the bare
union path. -/
theorem c3_counterexample :
    Athlete_validate (athleteBase (.int 5)) =
      [⟨[.field "maxHeartRateFormula", .field "str"], "string_type",
        "Input should be a valid string"⟩,
       ⟨[.field "maxHeartRateFormula", .field "dict[str,int]"], "dict_type",
        "Input should be a valid dictionary"⟩] ∧
    (Athlete_validate (athleteBase (.int 5))).length = 2 := by
  exact ⟨rfl, rfl⟩

/-- Claim C3, amended.  If a value matches at least one alternative of
`Union[str, Dict[str, int]]` the union contributes zero violations (any
string, and any dict of ints); a value matching no alternative produces
one violation per failed alternative, each at the union node's path
extended with the alternative's tag (`str`, `dict[str,int]`), not a single
`no-union-match` violation at the union's own path. -/
theorem c3_amended :
    (∀ s : String, Athlete_validate (athleteBase (.str s)) = []) ∧
    (∀ (k : String) (n : Int), Athlete_validate (athleteBase (.map [(k, .int n)])) = []) ∧
    Athlete_validate (athleteBase .null) =
      [⟨[.field "maxHeartRateFormula", .field "str"], "string_type",
        "Input should be a valid string"⟩,
       ⟨[.field "maxHeartRateFormula", .field "dict[str,int]"], "dict_type",
        "Input should be a valid dictionary"⟩] := by
  exact ⟨fun s => rfl, fun k n => rfl, rfl⟩

/-- Claim C4, counterexample.  The claim says absence of an Optional field
produces no violation.  Under pydantic v2, `Optional[int]` without an
explicit default is a required (merely nullable) field: validating the
empty map against `Zwift` (`level: Optional[int]`,
`racingScore: Optional[int]`) produces a `missing` violation for each. -/
theorem c4_counterexample :
    Zwift_validate (.map []) =
      [⟨[Seg.field "level"], "missing", "Field required"⟩,
       ⟨[Seg.field "racingScore"], "missing", "Field required"⟩] := by
  exact rfl

/-- Claim C4, amended.  Fields annotated `Optional[...]` without a default
(`Zone.to`, `Zwift.level`, `Zwift.racingScore`) accept `null` in place of
a value but are still required to be present: absence yields a `missing`
violation at the field's path, while presence with `null` or a valid value
yields none. -/
theorem c4_amended :
    (∀ n : Int,
      Zone_validate (.map [("from", .int n)]) =
        [⟨[Seg.field "to"], "missing", "Field required"⟩] ∧
      Zone_validate (.map [("from", .int n), ("to", .null)]) = [] ∧
      Zone_validate (.map [("from", .int n), ("to", .int n)]) = []) ∧
    Zwift_validate (.map [("level", .null), ("racingScore", .null)]) = [] := by
  exact ⟨fun n => ⟨rfl, rfl, rfl⟩, rfl⟩

/-- Claim C5, counterexample.  The claim says every Float-typed input at
an Int scalar position is rejected with exactly one type-mismatch
violation.  The float `2.0` as an element of `Athlete.ftpHistory :
List[int]` is accepted with zero violations: pydantic's lax mode coerces
floats without a fractional part to int. -/
theorem c5_counterexample :
    Athlete_validate (athleteNums (.map []) (.list [.float 2])) = [] := by
  exact rfl

/-- Claim C5, amended.  A Float input at an Int position is rejected (with
exactly one `int_from_float` violation at that position) only when it has
a fractional part; an integral Float is accepted by lax coercion.  An
Int-typed input at a Float-accepting position (a `weightHistory` value of
type `Union[int, float]`) is accepted with zero violations. -/
theorem c5_amended :
    (∀ q : Rat, Athlete_validate (athleteNums (.map []) (.list [.float q])) =
      if q.den = 1 then []
      else [⟨[Seg.field "ftpHistory", Seg.idx 0], "int_from_float",
            "Input should be a valid integer, got a number with a fractional part"⟩]) ∧
    (∀ (d : String) (n : Int),
      Athlete_validate (athleteNums (.map [(d, .int n)]) (.list [])) = []) := by
  refine ⟨?_, fun d n => rfl⟩
  intro q
  by_cases h : q.den = 1 <;>
    simp [Athlete_validate, athleteNums, hrzValid, reqField, defField, mapLookup, extraErrors,
      int_validate, listOf_validate, listOfAux, dictOf_validate, dictOfAux, str_validate,
      maxHeartRateFormula_validate, HeartRateZones_validate, literal_validate, Zone_validate,
      nullable_validate, pushLoc, h]

/-- Claim C6.  The claim — with the gate `enabled` false or absent, a
Conditional-Object produces zero violations for its gated fields whatever
their shape — matches the code's evident intent (the skip validator and
the `getattr(..., None)` guards of `check_required_if_enabled` both treat
the gated fields as optional when disabled), and it holds for
`AIIntegration`, whose gated fields have `None` defaults (second
conjunct).  But `CustomGearModel` declares `hashtagPrefix` and
`customGears` as required fields without defaults, so the before-validator
popping them makes every disabled document fail with two `missing`
violations — even this one whose gated fields are present and well-formed
(first conjunct).  The code contradicts its own conditional-requirement
design: a disabled custom-gear document can never validate. -/
theorem c6_code_bug :
    CustomGearModel.model_validate cgDisabledDoc =
      [⟨[Seg.field "hashtagPrefix"], "missing", "Field required"⟩,
       ⟨[Seg.field "customGears"], "missing", "Field required"⟩] ∧
    AIIntegration.model_validate
        (.map [("enabled", .bool false), ("enableUI", .bool true),
               ("provider", .int 5), ("configuration", .str "garbage")]) = [] := by
  exact ⟨rfl, rfl⟩

/-- Claim C7, counterexample.  The claim says the parsed document is
unchanged by a validation pass (validator and enricher only read it).  For
the disabled custom-gear document, the before-validator
`skip_nested_if_disabled` pops `hashtagPrefix` and `customGears` from the
caller's dict, so after the pass the key `hashtagPrefix` — present with
value "x" when parsing finished — is gone from the document. -/
theorem c7_counterexample :
    (CustomGearModel.run_pass cgDisabledDoc).2 ≠ cgDisabledDoc ∧
    get_value_by_path (CustomGearModel.run_pass cgDisabledDoc).2 [Seg.field "hashtagPrefix"]
      = Value.str "<value not found>" ∧
    get_value_by_path cgDisabledDoc [Seg.field "hashtagPrefix"] = Value.str "x" := by
  refine ⟨?_, rfl, rfl⟩
  intro h
  have h2 : Value.str "<value not found>" = Value.str "x" :=
    congrArg (fun d => get_value_by_path d [Seg.field "hashtagPrefix"]) h
  exact absurd (Value.str.inj h2) (by decide)

/-- Claim C7, amended.  The enricher only reads the document, but the
validator does not: `skip_nested_if_disabled` mutates the caller's input
map, removing the gated keys when the gate resolves falsy.  The document
is left unchanged by the pass whenever the gate field `enabled` resolves
truthy. -/
theorem c7_amended (kvs : List (String × Value))
    (h : truthy ((mapLookup kvs "enabled").getD (Value.bool false)) = true) :
    (CustomGearModel.run_pass (Value.map kvs)).2 = Value.map kvs := by
  simp [CustomGearModel.run_pass, CustomGearModel.doc_after,
    CustomGearModel.skip_nested_if_disabled, h]

/-- Witness for `c7_amended` at a concrete enabled document. -/
theorem c7_amended_witness :
    truthy ((mapLookup [("enabled", Value.bool true)] "enabled").getD (Value.bool false))
      = true ∧
    (CustomGearModel.run_pass (Value.map [("enabled", Value.bool true)])).2
      = Value.map [("enabled", Value.bool true)] :=
  ⟨by decide, c7_amended [("enabled", Value.bool true)] (by decide)⟩

/-- Claim C8, counterexample.  The claim says a failure of the
documentation-opening notify action is swallowed and the remaining
violations are still rendered.  `webbrowser.open` is called with no
`try/except`: when the hook raises "boom" while rendering the first of
two help-mapped violations, the run ends with the exception pending and
the second violation's line is never rendered. -/
theorem c8_counterexample :
    (print_friendly_errors [errProv, errUrl] (Value.map []) true
        (fun _ => Except.error "boom")).exc = some "boom" ∧
    "• ❌ `general.appUrl`: bad url" ∉
      (print_friendly_errors [errProv, errUrl] (Value.map []) true
        (fun _ => Except.error "boom")).lines := by
  exact ⟨rfl, by decide⟩

/-- Claim C8, amended.  The notify side effect is not guarded: whatever
exception the open hook raises propagates out of `print_friendly_errors`,
aborting the loop, so the violations after the failing one are not
rendered (the run's full observable state is exactly the lines up to and
including the failing violation's doc link, an empty `printed_links` set,
an empty open trace, and the pending exception). -/
theorem c8_amended (e : String) :
    print_friendly_errors [errProv, errUrl] (Value.map []) true (fun _ => Except.error e) =
      ⟨["❌ Validation failed:", "", "• ❌ `integrations.ai.provider`: bad provider",
        "  🔎 Invalid value: <value not found>", "  🧾 Which AI service to use",
        "  📘 See docs: https://statistics-for-strava-docs.robiningelbrecht.be/#/configuration/ai-integration"],
       [], [], some e⟩ := by
  exact rfl

/-- Claim C9.  In any single `print_friendly_errors` run — any violation
list, document, flag and open hook — the trace of `webbrowser.open`
invocations contains each documentation link at most once: the
`printed_links` membership check before each open deduplicates the
notifications. -/
theorem c9_notify_at_most_once (errors : List PydanticError) (data : Value)
    (auto_open_docs : Bool) (openFn : String → Except String Unit) :
    (print_friendly_errors errors data auto_open_docs openFn).opened.Nodup := by
  have hinv := foldl_render_inv data auto_open_docs openFn errors
    ⟨["❌ Validation failed:", ""], [], [], none⟩
    ⟨List.nodup_nil, by intro l hl; cases hl⟩
  exact hinv.1

/-- Claim C10, counterexample.  The claim says that for any falsy
`enabled` the stripped gated fields are neither required nor validated,
even when `enabled` itself fails boolean validation.  For
`CustomGearModel` with `enabled=""` (falsy, and failing bool validation
with `bool_parsing`), the stripped fields are indeed not validated — the
malformed present values produce no shape errors — but they are still
required: both come back as `missing` violations. -/
theorem c10_counterexample :
    CustomGearModel.model_validate
        (.map [("enabled", .str ""), ("hashtagPrefix", .int 5), ("customGears", .str "zz")]) =
      [⟨[Seg.field "enabled"], "bool_parsing",
        "Input should be a valid boolean, unable to interpret input"⟩,
       ⟨[Seg.field "hashtagPrefix"], "missing", "Field required"⟩,
       ⟨[Seg.field "customGears"], "missing", "Field required"⟩] := by
  exact rfl

/-- Claim C10, amended.  The gate is evaluated by Python truthiness of the
raw parsed value: any falsy `enabled` (`false`, `0`, `null`, `""`) or an
absent `enabled` strips the gated fields before validation, so their
content is never validated — even when `enabled` itself subsequently
fails boolean validation (`null` gives `bool_type`, `""` gives
`bool_parsing`) or is itself reported missing.  For `AIIntegration` the
stripped fields are then neither required nor validated; for
`CustomGearModel` the stripped fields, although never validated, are
still reported as `missing` (last conjunct). -/
theorem c10_amended :
    AIIntegration.model_validate
        (.map [("enabled", .bool false), ("enableUI", .bool true),
               ("provider", .int 9), ("configuration", .list [])]) = [] ∧
    AIIntegration.model_validate
        (.map [("enabled", .int 0), ("enableUI", .bool true),
               ("provider", .int 9), ("configuration", .list [])]) = [] ∧
    AIIntegration.model_validate
        (.map [("enabled", .null), ("enableUI", .bool true),
               ("provider", .int 9), ("configuration", .list [])]) =
      [⟨[Seg.field "enabled"], "bool_type", "Input should be a valid boolean"⟩] ∧
    AIIntegration.model_validate
        (.map [("enabled", .str ""), ("enableUI", .bool true),
               ("provider", .int 9), ("configuration", .list [])]) =
      [⟨[Seg.field "enabled"], "bool_parsing",
        "Input should be a valid boolean, unable to interpret input"⟩] ∧
    AIIntegration.model_validate
        (.map [("enableUI", .bool true), ("provider", .int 9), ("configuration", .list [])]) =
      [⟨[Seg.field "enabled"], "missing", "Field required"⟩] ∧
    CustomGearModel.model_validate (.map [("enabled", .null), ("hashtagPrefix", .int 5)]) =
      [⟨[Seg.field "enabled"], "bool_type", "Input should be a valid boolean"⟩,
       ⟨[Seg.field "hashtagPrefix"], "missing", "Field required"⟩,
       ⟨[Seg.field "customGears"], "missing", "Field required"⟩] := by
  exact ⟨rfl, rfl, rfl, rfl, rfl, rfl⟩
